import Mathlib

/-!
Verification of the realtime anomaly-detection core (`src/algorithms.py`):
a sliding-window Z-score detector and a bounded-memory online k-NN detector.

The Python classes are shallowly embedded as Lean structures; `is_anomaly`
methods become state-transforming functions.  Real-number arithmetic models
the float arithmetic of the source; `np.sort` is modelled by insertion sort
(ascending), `np.mean` / `np.std` by the population mean / standard
deviation, and Python's `deque(maxlen=w)` by a list that drops from the
left on overflow.  Fallible operations (numpy out-of-range indexing,
comparison of a float with `None`) return `Except`.
-/

namespace AnomalyDetection

/-- A two-dimensional data point, as consumed by both detectors. -/
abbrev Point : Type := ℝ × ℝ

/-- Model of `np.mean` of a list of reals (0 on the empty list, as a convention;
the code never takes a mean of an empty list on the paths we verify). -/
noncomputable def npMean (l : List ℝ) : ℝ := l.sum / l.length

/-- Population variance, as used by `np.std` (ddof = 0). -/
noncomputable def npVar (l : List ℝ) : ℝ :=
  ((l.map fun x => (x - npMean l) ^ 2).sum) / l.length

/-- Model of `np.std`: the population standard deviation. -/
noncomputable def npStd (l : List ℝ) : ℝ := Real.sqrt (npVar l)

/-- Model of `np.sort` (ascending), modelled by insertion sort. -/
noncomputable def npSort (l : List ℝ) : List ℝ := List.insertionSort (· ≤ ·) l

/-- Python `deque(maxlen = maxlen)` append: append on the right, dropping
from the left whenever the length would exceed `maxlen`. -/
def dequeAppend (maxlen : ℕ) (l : List Point) (p : Point) : List Point :=
  let l2 := l ++ [p]
  if maxlen < l2.length then l2.drop (l2.length - maxlen) else l2

/-- State of `ZScoreAnomalyDetector` (fields as in the source). -/
structure ZScoreAnomalyDetector where
  window_size : ℕ
  z_threshold : ℝ
  data_history : List Point

namespace ZScoreAnomalyDetector

/-- Constructor `ZScoreAnomalyDetector.__init__`.  The constructor body performs no
validation; the only way construction can fail is Python's
`deque(maxlen=window_size)`, which raises for a negative `maxlen`. -/
def init (window_size : ℤ) (z_threshold : ℝ) :
    Except String ZScoreAnomalyDetector :=
  if window_size < 0 then .error "maxlen must be non-negative"
  else .ok ⟨window_size.toNat, z_threshold, []⟩

/-- Method `ZScoreAnomalyDetector.is_anomaly`: append the point, return `false`
during warm-up or when some per-dimension standard deviation is zero;
otherwise flag by comparing per-dimension |Z-scores| with the threshold,
then pop the newest entry on an anomaly and the oldest otherwise. -/
noncomputable def is_anomaly (s : ZScoreAnomalyDetector) (p : Point) :
    Bool × ZScoreAnomalyDetector :=
  let h := dequeAppend s.window_size s.data_history p
  if h.length < s.window_size then (false, { s with data_history := h })
  else
    let xs := h.map Prod.fst
    let ys := h.map Prod.snd
    if npStd xs = 0 ∨ npStd ys = 0 then (false, { s with data_history := h })
    else
      let zx := (p.1 - npMean xs) / npStd xs
      let zy := (p.2 - npMean ys) / npStd ys
      if s.z_threshold < |zx| ∨ s.z_threshold < |zy| then
        (true, { s with data_history := h.dropLast })
      else
        (false, { s with data_history := h.tail })

/-- Feed a list of points one by one, collecting the classifications. -/
noncomputable def run (s : ZScoreAnomalyDetector) :
    List Point → List Bool × ZScoreAnomalyDetector
  | [] => ([], s)
  | p :: ps =>
    let r := s.is_anomaly p
    let rest := r.2.run ps
    (r.1 :: rest.1, rest.2)

end ZScoreAnomalyDetector

/-- State of `OnlineKNNAnomalyDetector` (fields as in the source). -/
structure OnlineKNNAnomalyDetector where
  k : ℕ
  window_size : ℕ
  memory : List Point
  is_auto_threshold_calculated : Bool
  threshold : Option ℝ

/-- Euclidean distance between two points
(`OnlineKNNAnomalyDetector.distance`). -/
noncomputable def distance (p1 p2 : Point) : ℝ :=
  Real.sqrt ((p1.1 - p2.1) ^ 2 + (p1.2 - p2.2) ^ 2)

/-- Run a fallible computation over each element in order, stopping at the
first failure (models a Python loop whose body may raise). -/
def collectSome {α β : Type} (f : α → Option β) : List α → Option (List β)
  | [] => some []
  | a :: l =>
    match f a with
    | none => none
    | some b => (collectSome f l).map fun bs => b :: bs

/-- The loop body of `calculate_threshold`: for each index `i`, the sorted
distances from `memory[i]` to the other points, indexed at `k - 1`
(`none` models the `IndexError` when fewer than `k` other points exist). -/
noncomputable def kthNNDistances (mem : List Point) (k : ℕ) : Option (List ℝ) :=
  collectSome
    (fun ip => (npSort ((mem.eraseIdx ip.1).map fun q => distance ip.2 q)).get? (k - 1))
    mem.enum

/-- The memory update of `add_point`: drop the oldest point when memory is
at (or beyond) capacity, then append the new point. -/
def knnPush (w : ℕ) (mem : List Point) (p : Point) : List Point :=
  (if w ≤ mem.length then mem.eraseIdx 0 else mem) ++ [p]

namespace OnlineKNNAnomalyDetector

/-- Constructor `OnlineKNNAnomalyDetector.__init__`: rejects `k < 1 or window_size < k`
with a `ValueError`, otherwise produces the empty-memory state. -/
def init (k window_size : ℤ) (threshold : Option ℝ) :
    Except String OnlineKNNAnomalyDetector :=
  if k < 1 ∨ window_size < k then
    .error "Invalid k or window_size, K must be greater than 0 and window_size must be greater than k"
  else .ok ⟨k.toNat, window_size.toNat, [], false, threshold⟩

/-- Method `calculate_threshold`: mean of the leave-one-out k-th-nearest-neighbor
distances plus 2.7 times their population standard deviation. -/
noncomputable def calculate_threshold (s : OnlineKNNAnomalyDetector) : Option ℝ :=
  (kthNNDistances s.memory s.k).map fun ds => npMean ds + 2.7 * npStd ds

/-- Method `add_point`: evict the oldest point when memory is full, append the new
point, and auto-calibrate the threshold the first time memory reaches
`window_size` when no explicit threshold was supplied. -/
noncomputable def add_point (s : OnlineKNNAnomalyDetector) (p : Point) :
    Except String OnlineKNNAnomalyDetector :=
  if s.threshold.isNone = true ∧ s.is_auto_threshold_calculated = false ∧
      s.window_size ≤ (knnPush s.window_size s.memory p).length then
    match calculate_threshold { s with memory := knnPush s.window_size s.memory p } with
    | none => .error "IndexError: index out of bounds"
    | some t =>
      .ok { s with
            memory := knnPush s.window_size s.memory p,
            is_auto_threshold_calculated := true,
            threshold := some t }
  else .ok { s with memory := knnPush s.window_size s.memory p }

/-- Method `is_anomaly`: during warm-up just add the point and answer `false`;
otherwise compare the k-th smallest distance to memory against the
threshold (comparing against a still-unset `None` threshold models the
Python `TypeError`), and add the point only when it is not anomalous. -/
noncomputable def is_anomaly (s : OnlineKNNAnomalyDetector) (p : Point) :
    Except String (Bool × OnlineKNNAnomalyDetector) :=
  if s.memory.length < s.window_size then
    (s.add_point p).map fun s1 => (false, s1)
  else
    match (npSort (s.memory.map fun q => distance p q)).get? (s.k - 1) with
    | none => .error "IndexError: index out of bounds"
    | some knn_distance =>
      match s.threshold with
      | none => .error "TypeError: '>' not supported between float and NoneType"
      | some t =>
        if t < knn_distance then .ok (true, s)
        else (s.add_point p).map fun s1 => (false, s1)

/-- Feed a list of points one by one, collecting the classifications;
fails if any call raises. -/
noncomputable def run (s : OnlineKNNAnomalyDetector) :
    List Point → Except String (List Bool × OnlineKNNAnomalyDetector)
  | [] => .ok ([], s)
  | p :: ps =>
    match s.is_anomaly p with
    | .error e => .error e
    | .ok r =>
      match r.2.run ps with
      | .error e => .error e
      | .ok rest => .ok (r.1 :: rest.1, rest.2)

end OnlineKNNAnomalyDetector

/-! ### Helper lemmas -/

lemma npSort_length (l : List ℝ) : (npSort l).length = l.length := by
  simp [npSort]

lemma kthNNDistances_eq_none {mem : List Point} {k : ℕ}
    (hm : mem ≠ []) (hk : mem.length ≤ k) : kthNNDistances mem k = none := by
  cases mem with
  | nil => exact absurd rfl hm
  | cons p rest =>
    have hfirst :
        (npSort (((p :: rest).eraseIdx 0).map fun q => distance p q)).get? (k - 1)
          = none := by
      rw [List.get?_eq_none]
      rw [npSort_length, List.length_map]
      simp only [List.eraseIdx]
      simp only [List.length_cons] at hk
      omega
    unfold kthNNDistances
    rw [List.enum_cons]
    unfold collectSome
    rw [hfirst]

lemma is_anomaly_warmup {s : OnlineKNNAnomalyDetector} (p : Point)
    (h : s.memory.length < s.window_size) :
    s.is_anomaly p = (s.add_point p).map fun s1 => (false, s1) := by
  unfold OnlineKNNAnomalyDetector.is_anomaly
  rw [if_pos h]

lemma knnPush_not_full {w : ℕ} {mem : List Point} (p : Point) (h : mem.length < w) :
    knnPush w mem p = mem ++ [p] := by
  unfold knnPush; rw [if_neg (by omega)]

lemma add_point_small {s : OnlineKNNAnomalyDetector} (p : Point)
    (h : s.memory.length + 1 < s.window_size) :
    s.add_point p = .ok { s with memory := s.memory ++ [p] } := by
  unfold OnlineKNNAnomalyDetector.add_point
  rw [knnPush_not_full p (by omega)]
  have hc : ¬ (s.threshold.isNone = true ∧ s.is_auto_threshold_calculated = false ∧
      s.window_size ≤ (s.memory ++ [p]).length) := by
    rintro ⟨-, -, hl⟩
    rw [List.length_append, List.length_cons, List.length_nil] at hl
    omega
  rw [if_neg hc]

lemma collectSome_isSome {α β : Type} (f : α → Option β) :
    ∀ l : List α, (∀ a ∈ l, (f a).isSome = true) → ∃ bs, collectSome f l = some bs
  | [], _ => ⟨[], rfl⟩
  | a :: l, h => by
    obtain ⟨b, hb⟩ := Option.isSome_iff_exists.1 (h a (.head _))
    obtain ⟨bs, hbs⟩ := collectSome_isSome f l fun x hx => h x (.tail _ hx)
    exact ⟨b :: bs, by unfold collectSome; rw [hb, hbs]; rfl⟩

lemma kthNNDistances_isSome {mem : List Point} {k : ℕ}
    (hk : 1 ≤ k) (hkm : k < mem.length) :
    ∃ ds, kthNNDistances mem k = some ds := by
  unfold kthNNDistances
  apply collectSome_isSome
  intro ip hip
  have hi : mem.get? ip.1 = some ip.2 := List.mk_mem_enum_iff_get?.1 (by
    cases ip; exact hip)
  have hilt : ip.1 < mem.length := by
    by_contra hge
    rw [List.get?_eq_none.2 (le_of_not_lt hge)] at hi
    cases hi
  have hidx : k - 1 < (npSort ((mem.eraseIdx ip.1).map fun q => distance ip.2 q)).length := by
    rw [npSort_length, List.length_map, List.length_eraseIdx_of_lt hilt]
    omega
  rw [List.get?_eq_get hidx]
  rfl

lemma calculate_threshold_isSome {s : OnlineKNNAnomalyDetector}
    (hk : 1 ≤ s.k) (hkm : s.k < s.memory.length) :
    ∃ ds, kthNNDistances s.memory s.k = some ds ∧
      s.calculate_threshold = some (npMean ds + 2.7 * npStd ds) := by
  obtain ⟨ds, hds⟩ := kthNNDistances_isSome hk hkm
  exact ⟨ds, hds, by unfold OnlineKNNAnomalyDetector.calculate_threshold; rw [hds]; rfl⟩

lemma knnPush_length_le {w : ℕ} {mem : List Point} (p : Point)
    (hw : 1 ≤ w) (hlen : mem.length ≤ w) : (knnPush w mem p).length ≤ w := by
  unfold knnPush
  by_cases hf : w ≤ mem.length
  · rw [if_pos hf, List.length_append, List.length_eraseIdx_of_lt (by omega)]
    simp
    omega
  · rw [if_neg hf, List.length_append]
    simp
    omega

lemma knnPush_length_full {w : ℕ} {mem : List Point} (p : Point)
    (hw : 1 ≤ w) (hlen : mem.length = w) : (knnPush w mem p).length = w := by
  unfold knnPush
  rw [if_pos (by omega), List.length_append, List.length_eraseIdx_of_lt (by omega)]
  simp
  omega

/-- The state invariant maintained by every k-NN detector whose
construction succeeded with `k < window_size` or an explicit threshold. -/
def KInv (s : OnlineKNNAnomalyDetector) : Prop :=
  1 ≤ s.k ∧ s.k ≤ s.window_size ∧
  (s.threshold = none → s.k < s.window_size) ∧
  s.memory.length ≤ s.window_size ∧
  (s.window_size ≤ s.memory.length → s.threshold ≠ none) ∧
  (s.is_auto_threshold_calculated = true → s.threshold ≠ none)

lemma add_point_ok {s : OnlineKNNAnomalyDetector} (p : Point) (hinv : KInv s) :
    ∃ s', s.add_point p = .ok s' ∧ KInv s' ∧
      s'.k = s.k ∧ s'.window_size = s.window_size ∧
      s'.memory = knnPush s.window_size s.memory p ∧
      (∀ t, s.threshold = some t → s'.threshold = some t) ∧
      (s'.threshold = none → s.threshold = none) ∧
      (s'.threshold = none → s'.memory.length < s.window_size) ∧
      (s.threshold = none →
        (s'.threshold = none ∧ s'.memory.length < s.window_size) ∨
        (s'.memory.length = s.window_size ∧
         ∃ ds, kthNNDistances s'.memory s.k = some ds ∧
           s'.threshold = some (npMean ds + 2.7 * npStd ds))) := by
  obtain ⟨hk, hkw, hauto, hlen, hfull, hflag⟩ := hinv
  have hw1 : 1 ≤ s.window_size := le_trans hk hkw
  have hplen : (knnPush s.window_size s.memory p).length ≤ s.window_size :=
    knnPush_length_le p hw1 hlen
  by_cases hth : s.threshold = none
  · have hkltw := hauto hth
    have hfl : s.is_auto_threshold_calculated = false := by
      cases hfc : s.is_auto_threshold_calculated
      · rfl
      · exact absurd hth (hflag hfc)
    by_cases hfire : s.window_size ≤ (knnPush s.window_size s.memory p).length
    · have hmemlen : (knnPush s.window_size s.memory p).length = s.window_size :=
        le_antisymm hplen hfire
      obtain ⟨ds, hds, ht⟩ :=
        calculate_threshold_isSome (s := { s with memory := knnPush s.window_size s.memory p })
          hk (show s.k < (knnPush s.window_size s.memory p).length by
            rw [hmemlen]; exact hkltw)
      have hds' : kthNNDistances (knnPush s.window_size s.memory p) s.k = some ds := hds
      refine ⟨{ s with
                memory := knnPush s.window_size s.memory p,
                is_auto_threshold_calculated := true,
                threshold := some (npMean ds + 2.7 * npStd ds) },
        ?_, ⟨hk, hkw, ?_, ?_, ?_, ?_⟩, rfl, rfl, rfl, ?_, ?_, ?_, ?_⟩
      · unfold OnlineKNNAnomalyDetector.add_point
        rw [if_pos ⟨by rw [hth]; rfl, hfl, hfire⟩, ht]
      · intro hc
        simp at hc
      · show (knnPush s.window_size s.memory p).length ≤ s.window_size
        exact hplen
      · intro _
        simp
      · intro _
        simp
      · intro t hsome
        rw [hth] at hsome
        cases hsome
      · intro hc
        simp at hc
      · intro hc
        simp at hc
      · intro _
        right
        exact ⟨hmemlen, ds, hds', rfl⟩
    · refine ⟨{ s with memory := knnPush s.window_size s.memory p },
        ?_, ⟨hk, hkw, fun _ => hkltw, ?_, ?_, ?_⟩, rfl, rfl, rfl, ?_, ?_, ?_, ?_⟩
      · unfold OnlineKNNAnomalyDetector.add_point
        rw [if_neg fun hc => hfire hc.2.2]
      · show (knnPush s.window_size s.memory p).length ≤ s.window_size
        exact hplen
      · intro hc
        exact absurd hc hfire
      · intro hc
        rw [show ({ s with memory := knnPush s.window_size s.memory p} :
            OnlineKNNAnomalyDetector).is_auto_threshold_calculated
          = s.is_auto_threshold_calculated from rfl, hfl] at hc
        cases hc
      · intro t hsome
        exact hsome
      · intro _
        exact hth
      · intro _
        show (knnPush s.window_size s.memory p).length < s.window_size
        omega
      · intro _
        left
        refine ⟨hth, ?_⟩
        show (knnPush s.window_size s.memory p).length < s.window_size
        omega
  · refine ⟨{ s with memory := knnPush s.window_size s.memory p },
      ?_, ⟨hk, hkw, fun hc => absurd hc hth, ?_, fun _ => hth, fun _ => hth⟩,
      rfl, rfl, rfl, fun t h => h, fun hc => absurd hc hth, fun hc => absurd hc hth,
      fun hc => absurd hc hth⟩
    · unfold OnlineKNNAnomalyDetector.add_point
      rw [if_neg fun hc => hth (Option.isNone_iff_eq_none.1 hc.1)]
    · show (knnPush s.window_size s.memory p).length ≤ s.window_size
      exact hplen

lemma is_anomaly_ok {s : OnlineKNNAnomalyDetector} (p : Point) (hinv : KInv s) :
    ∃ b s', s.is_anomaly p = .ok (b, s') ∧ KInv s' ∧
      s'.k = s.k ∧ s'.window_size = s.window_size ∧
      (∀ t, s.threshold = some t → s'.threshold = some t) ∧
      (s'.threshold = none → s.threshold = none) ∧
      (b = true → s' = s) ∧
      (b = false → s'.memory = knnPush s.window_size s.memory p) ∧
      (s.memory.length = s.window_size → s'.memory.length = s.window_size) ∧
      (s.threshold = none →
        (s'.threshold = none ∧ s'.memory.length < s.window_size) ∨
        (s'.memory.length = s.window_size ∧
         ∃ ds, kthNNDistances s'.memory s.k = some ds ∧
           s'.threshold = some (npMean ds + 2.7 * npStd ds))) := by
  obtain ⟨hk, hkw, hauto, hlen, hfull, hflag⟩ := id hinv
  have hw1 : 1 ≤ s.window_size := le_trans hk hkw
  by_cases hwarm : s.memory.length < s.window_size
  · obtain ⟨s', hstep, hinv', hk', hw', hmem', hsome', hnone', hlt', hcal'⟩ :=
      add_point_ok p hinv
    refine ⟨false, s', ?_, hinv', hk', hw', hsome', hnone', ?_, fun _ => hmem', ?_, hcal'⟩
    · unfold OnlineKNNAnomalyDetector.is_anomaly
      rw [if_pos hwarm, hstep]
      rfl
    · intro hc
      cases hc
    · intro hc
      omega
  · have hmw : s.memory.length = s.window_size := le_antisymm hlen (not_lt.1 hwarm)
    obtain ⟨t, ht⟩ := Option.ne_none_iff_exists'.1 (hfull (not_lt.1 hwarm))
    have hidx : s.k - 1 < (npSort (s.memory.map fun q => distance p q)).length := by
      rw [npSort_length, List.length_map]
      omega
    have hget : (npSort (s.memory.map fun q => distance p q)).get? (s.k - 1)
        = some ((npSort (s.memory.map fun q => distance p q)).get ⟨s.k - 1, hidx⟩) :=
      List.get?_eq_get hidx
    by_cases hdec : t < (npSort (s.memory.map fun q => distance p q)).get ⟨s.k - 1, hidx⟩
    · refine ⟨true, s, ?_, hinv, rfl, rfl, fun t h => h, fun h => h, fun _ => rfl, ?_, ?_, ?_⟩
      · unfold OnlineKNNAnomalyDetector.is_anomaly
        rw [if_neg hwarm, hget, ht]
        simp only [if_pos hdec]
      · intro hc
        cases hc
      · intro h
        exact h
      · intro hc
        rw [ht] at hc
        cases hc
    · obtain ⟨s', hstep, hinv', hk', hw', hmem', hsome', hnone', hlt', hcal'⟩ :=
        add_point_ok p hinv
      refine ⟨false, s', ?_, hinv', hk', hw', hsome', hnone', ?_, fun _ => hmem', ?_, ?_⟩
      · unfold OnlineKNNAnomalyDetector.is_anomaly
        rw [if_neg hwarm, hget, ht]
        simp only [if_neg hdec]
        rw [hstep]
        rfl
      · intro hc
        cases hc
      · intro _
        rw [hmem']
        exact knnPush_length_full p hw1 hmw
      · intro hc
        rw [ht] at hc
        cases hc

lemma run_ok : ∀ (ps : List Point) {s : OnlineKNNAnomalyDetector}, KInv s →
    ∃ bs s', s.run ps = .ok (bs, s') ∧ KInv s' := by
  intro ps
  induction ps with
  | nil => exact fun h => ⟨[], _, rfl, h⟩
  | cons p ps ih =>
    intro s h
    obtain ⟨b, s', hstep, hinv', _⟩ := is_anomaly_ok p h
    obtain ⟨bs, s'', hrun, hinv''⟩ := ih hinv'
    exact ⟨b :: bs, s'', by simp only [OnlineKNNAnomalyDetector.run, hstep, hrun], hinv''⟩

lemma KInv_init {k w : ℤ} {th : Option ℝ} (hk : 1 ≤ k) (hkw : k ≤ w)
    (hside : k < w ∨ th ≠ none) :
    KInv ⟨k.toNat, w.toNat, [], false, th⟩ := by
  refine ⟨show 1 ≤ k.toNat by omega, show k.toNat ≤ w.toNat by omega, ?_,
    show (0 : ℕ) ≤ w.toNat by omega, ?_, fun hc => Bool.noConfusion hc⟩
  · intro hthn
    show k.toNat < w.toNat
    rcases hside with h | h
    · omega
    · exact absurd hthn h
  · intro hc
    have hc0 : w.toNat ≤ 0 := hc
    exfalso
    omega

/-! ### C1: `k = window_size` is accepted by the k-NN constructor -/

/-- C1 (code bug): the claim matches the intent (the constructor's own
error message reads "window_size must be greater than k"), but the check
in the code is `window_size < k`, so the configuration `k = 5,
`window_size = 5` is accepted instead of raising; the resulting detector
then raises an `IndexError` during auto-calibration, on the call that
fills its memory. -/
theorem C1_knn_equal_k_window_not_rejected :
    OnlineKNNAnomalyDetector.init 5 5 none = .ok ⟨5, 5, [], false, none⟩ ∧
    OnlineKNNAnomalyDetector.run ⟨5, 5, [], false, none⟩
        [(0, 0), (0, 0), (0, 0), (0, 0), (0, 0)]
      = .error "IndexError: index out of bounds" := by
  constructor
  · rfl
  · have e1 : OnlineKNNAnomalyDetector.is_anomaly ⟨5, 5, [], false, none⟩ (0, 0)
        = .ok (false, ⟨5, 5, [(0, 0)], false, none⟩) := by
      rw [is_anomaly_warmup _ (by norm_num), add_point_small _ (by norm_num)]; rfl
    have e2 : OnlineKNNAnomalyDetector.is_anomaly ⟨5, 5, [(0, 0)], false, none⟩ (0, 0)
        = .ok (false, ⟨5, 5, [(0, 0), (0, 0)], false, none⟩) := by
      rw [is_anomaly_warmup _ (by norm_num), add_point_small _ (by norm_num)]; rfl
    have e3 : OnlineKNNAnomalyDetector.is_anomaly ⟨5, 5, [(0, 0), (0, 0)], false, none⟩ (0, 0)
        = .ok (false, ⟨5, 5, [(0, 0), (0, 0), (0, 0)], false, none⟩) := by
      rw [is_anomaly_warmup _ (by norm_num), add_point_small _ (by norm_num)]; rfl
    have e4 : OnlineKNNAnomalyDetector.is_anomaly
          ⟨5, 5, [(0, 0), (0, 0), (0, 0)], false, none⟩ (0, 0)
        = .ok (false, ⟨5, 5, [(0, 0), (0, 0), (0, 0), (0, 0)], false, none⟩) := by
      rw [is_anomaly_warmup _ (by norm_num), add_point_small _ (by norm_num)]; rfl
    have e5 : OnlineKNNAnomalyDetector.is_anomaly
          ⟨5, 5, [(0, 0), (0, 0), (0, 0), (0, 0)], false, none⟩ (0, 0)
        = .error "IndexError: index out of bounds" := by
      rw [is_anomaly_warmup _ (by norm_num)]
      have hthr : OnlineKNNAnomalyDetector.calculate_threshold
          ⟨5, 5, ([0, 0, 0, 0, 0] : List Point), false, none⟩ = none := by
        unfold OnlineKNNAnomalyDetector.calculate_threshold
        rw [kthNNDistances_eq_none (by simp) (by simp)]
        rfl
      have hadd : OnlineKNNAnomalyDetector.add_point
            ⟨5, 5, [(0, 0), (0, 0), (0, 0), (0, 0)], false, none⟩ (0, 0)
          = .error "IndexError: index out of bounds" := by
        unfold OnlineKNNAnomalyDetector.add_point
        norm_num [knnPush, hthr]
      rw [hadd]; rfl
    simp only [OnlineKNNAnomalyDetector.run, e1, e2, e3, e4, e5]

/-! ### C2: exception freedom of the k-NN detector -/

/-- C2 counterexample: `k = 1, window_size = 1` passes construction, yet
the very first call to `is_anomaly` on a well-formed 2-d point raises an
`IndexError` (auto-calibration indexes the distance list out of range), so
"construction succeeds → no call ever raises" is false as stated. -/
theorem C2_no_exception_cex :
    OnlineKNNAnomalyDetector.init 1 1 none = .ok ⟨1, 1, [], false, none⟩ ∧
    OnlineKNNAnomalyDetector.run ⟨1, 1, [], false, none⟩ [(0, 0)]
      = .error "IndexError: index out of bounds" := by
  constructor
  · rfl
  · have hthr : OnlineKNNAnomalyDetector.calculate_threshold
        ⟨1, 1, ([0] : List Point), false, none⟩ = none := by
      unfold OnlineKNNAnomalyDetector.calculate_threshold
      rw [kthNNDistances_eq_none (by simp) (by simp)]
      rfl
    have hadd : OnlineKNNAnomalyDetector.add_point ⟨1, 1, [], false, none⟩ (0, 0)
        = .error "IndexError: index out of bounds" := by
      unfold OnlineKNNAnomalyDetector.add_point
      norm_num [knnPush, hthr]
    have e1 : OnlineKNNAnomalyDetector.is_anomaly ⟨1, 1, [], false, none⟩ (0, 0)
        = .error "IndexError: index out of bounds" := by
      rw [is_anomaly_warmup _ (by norm_num), hadd]
      rfl
    simp only [OnlineKNNAnomalyDetector.run, e1]

/-- C2 (amended): for every k-NN detector whose construction succeeds with
`k < window_size` or with an explicit threshold, no sequence of
well-formed 2-dimensional points makes any call of `is_anomaly` (or the
add/calibration steps it triggers) raise.  Only the uncaught combination
`k = window_size` with auto-calibration can raise. -/
theorem C2_no_exception (k w : ℤ) (th : Option ℝ) (s0 : OnlineKNNAnomalyDetector)
    (hinit : OnlineKNNAnomalyDetector.init k w th = .ok s0)
    (hside : k < w ∨ th ≠ none) (ps : List Point) :
    ∃ r, s0.run ps = .ok r := by
  have hcond : ¬ (k < 1 ∨ w < k) := by
    intro hc
    rw [OnlineKNNAnomalyDetector.init, if_pos hc] at hinit
    cases hinit
  rw [OnlineKNNAnomalyDetector.init, if_neg hcond, Except.ok.injEq] at hinit
  push_neg at hcond
  have hinv : KInv s0 := by
    rw [← hinit]
    exact KInv_init (by omega) (by omega) hside
  obtain ⟨bs, s', hrun, -⟩ := run_ok ps hinv
  exact ⟨(bs, s'), hrun⟩

/-- C2 witness: a `k = 1, window_size = 2` auto-threshold detector, fed
three points (enough to trigger calibration), never raises. -/
theorem C2_no_exception_witness :
    ∃ r, OnlineKNNAnomalyDetector.run ⟨1, 2, [], false, none⟩
      [(0, 0), (0, 0), (0, 0)] = .ok r :=
  C2_no_exception 1 2 none ⟨1, 2, [], false, none⟩ rfl (Or.inl (by norm_num)) _

/-! ### C3: one-shot auto-calibration of the k-NN threshold -/

/-- Strengthened invariant for auto-calibrating runs: the threshold is
unset exactly while memory is below capacity. -/
def KInvAuto (s : OnlineKNNAnomalyDetector) : Prop :=
  KInv s ∧ (s.threshold = none ↔ s.memory.length < s.window_size)

lemma run_threshold_mono : ∀ (ps : List Point) {s s' : OnlineKNNAnomalyDetector}
    {bs : List Bool} {t : ℝ},
    KInv s → s.threshold = some t → s.run ps = .ok (bs, s') → s'.threshold = some t := by
  intro ps
  induction ps with
  | nil =>
    intro s s' bs t hinv ht hrun
    simp only [OnlineKNNAnomalyDetector.run, Except.ok.injEq, Prod.mk.injEq] at hrun
    rw [← hrun.2]
    exact ht
  | cons p ps ih =>
    intro s s' bs t hinv ht hrun
    obtain ⟨b, s1, hstep, hinv1, hk1, hw1, hsome, hnone, hbt, hbf, hlenf, hcal⟩ :=
      is_anomaly_ok p hinv
    simp only [OnlineKNNAnomalyDetector.run, hstep] at hrun
    cases hrest : s1.run ps with
    | error e =>
      rw [hrest] at hrun
      exact Except.noConfusion hrun
    | ok rest =>
      rw [hrest] at hrun
      simp only [Except.ok.injEq, Prod.mk.injEq] at hrun
      rw [← hrun.2]
      exact ih hinv1 (hsome t ht) (by rw [hrest])

lemma is_anomaly_auto {s : OnlineKNNAnomalyDetector} (p : Point) (h : KInvAuto s) :
    ∃ b s', s.is_anomaly p = .ok (b, s') ∧ KInvAuto s' := by
  obtain ⟨hinv, hiff⟩ := h
  obtain ⟨hk, hkw, hauto, hlen, hfull, hflag⟩ := id hinv
  obtain ⟨b, s1, hstep, hinv1, hk1, hw1, hsome, hnone, hbt, hbf, hlenf, hcal⟩ :=
    is_anomaly_ok p hinv
  refine ⟨b, s1, hstep, hinv1, ?_⟩
  by_cases hthn : s.threshold = none
  · rcases hcal hthn with ⟨hn, hlt⟩ | ⟨hfl, ds, hds, hth⟩
    · rw [hw1]
      exact iff_of_true hn hlt
    · rw [hw1]
      refine iff_of_false ?_ ?_
      · rw [hth]
        simp
      · rw [hfl]
        omega
  · obtain ⟨t, ht⟩ := Option.ne_none_iff_exists'.1 hthn
    have hth1 := hsome t ht
    have hmw : s.memory.length = s.window_size :=
      le_antisymm hlen (not_lt.1 fun hc => hthn (hiff.mpr hc))
    have hmw1 := hlenf hmw
    rw [hw1]
    refine iff_of_false ?_ ?_
    · rw [hth1]
      simp
    · rw [hmw1]
      omega

lemma run_auto : ∀ (ps : List Point) {s s' : OnlineKNNAnomalyDetector} {bs : List Bool},
    KInvAuto s → s.run ps = .ok (bs, s') → KInvAuto s' := by
  intro ps
  induction ps with
  | nil =>
    intro s s' bs h hrun
    simp only [OnlineKNNAnomalyDetector.run, Except.ok.injEq, Prod.mk.injEq] at hrun
    rw [← hrun.2]
    exact h
  | cons p ps ih =>
    intro s s' bs h hrun
    obtain ⟨b, s1, hstep, h1⟩ := is_anomaly_auto p h
    simp only [OnlineKNNAnomalyDetector.run, hstep] at hrun
    cases hrest : s1.run ps with
    | error e =>
      rw [hrest] at hrun
      exact Except.noConfusion hrun
    | ok rest =>
      rw [hrest] at hrun
      simp only [Except.ok.injEq, Prod.mk.injEq] at hrun
      rw [← hrun.2]
      exact ih h1 (by rw [hrest])

/-- C3: for a k-NN detector constructed without an explicit threshold
(with `k < window_size`, the invariant the constructor intends to
enforce), in every reachable state: the threshold is unset exactly while
Memory is below capacity; once set to a value it keeps exactly that value
through every further call (never recomputed); and from an unset-threshold
state, one more call either leaves the threshold unset (memory still below
capacity) or — at the moment memory first reaches `window_size` — sets it
to mean + 2.7 × population standard deviation of the leave-one-out
k-th-nearest-neighbor distances over the full Memory. -/
theorem C3_threshold_once (k w : ℤ) (s0 : OnlineKNNAnomalyDetector)
    (hinit : OnlineKNNAnomalyDetector.init k w none = .ok s0) (hkw : k < w) :
    ∀ ps bs s, s0.run ps = .ok (bs, s) →
      (s.threshold = none ↔ s.memory.length < s.window_size) ∧
      (∀ t ps2 bs2 s2, s.threshold = some t → s.run ps2 = .ok (bs2, s2) →
         s2.threshold = some t) ∧
      (s.threshold = none → ∀ p b s', s.is_anomaly p = .ok (b, s') →
         (s'.threshold = none ∧ s'.memory.length < s'.window_size) ∨
         (s'.memory.length = s'.window_size ∧
          ∃ ds, kthNNDistances s'.memory s'.k = some ds ∧
            s'.threshold = some (npMean ds + 2.7 * npStd ds))) := by
  have hcond : ¬ (k < 1 ∨ w < k) := by
    intro hc
    rw [OnlineKNNAnomalyDetector.init, if_pos hc] at hinit
    cases hinit
  rw [OnlineKNNAnomalyDetector.init, if_neg hcond, Except.ok.injEq] at hinit
  push_neg at hcond
  have hinv0 : KInvAuto s0 := by
    rw [← hinit]
    refine ⟨KInv_init (by omega) (by omega) (Or.inl hkw), ?_⟩
    exact iff_of_true rfl (show (0 : ℕ) < w.toNat by omega)
  intro ps bs s hrun
  have hA : KInvAuto s := run_auto ps hinv0 hrun
  refine ⟨hA.2, fun t ps2 bs2 s2 ht hrun2 => run_threshold_mono ps2 hA.1 ht hrun2, ?_⟩
  intro hthn p b s' hstep'
  obtain ⟨b2, s2, hstep, hinv2, hk2, hw2, hsome2, hnone2, hbt2, hbf2, hlenf2, hcal2⟩ :=
    is_anomaly_ok p hA.1
  rw [hstep'] at hstep
  simp only [Except.ok.injEq, Prod.mk.injEq] at hstep
  obtain ⟨hb, hs⟩ := hstep
  subst hs
  rcases hcal2 hthn with ⟨hn, hlt⟩ | ⟨hfl, ds, hds, hth⟩
  · left
    refine ⟨hn, ?_⟩
    rw [hw2]
    exact hlt
  · right
    refine ⟨?_, ds, ?_, hth⟩
    · rw [hw2]
      exact hfl
    · rw [hk2]
      exact hds

/-- C3 witness: instantiation at `k = 1, window_size = 2`, the empty run. -/
theorem C3_threshold_once_witness :
    (OnlineKNNAnomalyDetector.mk 1 2 [] false none).threshold = none ↔
      (OnlineKNNAnomalyDetector.mk 1 2 [] false none).memory.length
        < (OnlineKNNAnomalyDetector.mk 1 2 [] false none).window_size :=
  (C3_threshold_once 1 2 ⟨1, 2, [], false, none⟩ rfl (by norm_num) [] []
    ⟨1, 2, [], false, none⟩ rfl).1

/-! ### C5: warm-up always classifies `false` -/

lemma dequeAppend_small {w : ℕ} {l : List Point} (p : Point) (h : l.length + 1 ≤ w) :
    dequeAppend w l p = l ++ [p] := by
  simp only [dequeAppend]
  rw [if_neg]
  rw [List.length_append, List.length_cons, List.length_nil]
  omega

lemma zscore_is_anomaly_warmup {s : ZScoreAnomalyDetector} (p : Point)
    (h : s.data_history.length + 1 < s.window_size) :
    s.is_anomaly p = (false, { s with data_history := s.data_history ++ [p] }) := by
  simp only [ZScoreAnomalyDetector.is_anomaly]
  rw [dequeAppend_small p (by omega)]
  rw [if_pos (by rw [List.length_append, List.length_cons, List.length_nil]; omega)]

lemma zscore_warmup : ∀ (ps : List Point) (s : ZScoreAnomalyDetector),
    s.data_history.length + ps.length < s.window_size →
    s.run ps = (List.replicate ps.length false,
      { s with data_history := s.data_history ++ ps }) := by
  intro ps
  induction ps with
  | nil =>
    intro s h
    simp [ZScoreAnomalyDetector.run]
  | cons p ps ih =>
    intro s h
    have hstep := zscore_is_anomaly_warmup (s := s) p (by
      rw [List.length_cons] at h; omega)
    have hrest := ih { s with data_history := s.data_history ++ [p] } (by
      simp only [List.length_append, List.length_cons, List.length_nil]
      rw [List.length_cons] at h
      omega)
    simp only [ZScoreAnomalyDetector.run, hstep, hrest]
    simp [List.replicate_succ, List.append_assoc]

lemma knn_warmup : ∀ (ps : List Point) (s : OnlineKNNAnomalyDetector),
    s.memory.length + ps.length < s.window_size →
    s.run ps = .ok (List.replicate ps.length false,
      { s with memory := s.memory ++ ps }) := by
  intro ps
  induction ps with
  | nil =>
    intro s h
    simp [OnlineKNNAnomalyDetector.run]
  | cons p ps ih =>
    intro s h
    rw [List.length_cons] at h
    have hstep : s.is_anomaly p = .ok (false, { s with memory := s.memory ++ [p] }) := by
      rw [is_anomaly_warmup _ (by omega), add_point_small _ (by omega)]
      rfl
    have hrest := ih { s with memory := s.memory ++ [p] } (by
      simp only [List.length_append, List.length_cons, List.length_nil]
      omega)
    simp only [OnlineKNNAnomalyDetector.run, hstep, hrest]
    simp [List.replicate_succ, List.append_assoc]

/-- C5: with any window size, feeding fewer than `window_size` points
yields `false` on every call, for the Z-score detector (fresh history) and
for any successfully constructed k-NN detector alike. -/
theorem C5_warmup_all_false (wz : ℕ) (z : ℝ) (k w : ℤ) (th : Option ℝ)
    (sK : OnlineKNNAnomalyDetector) (ps : List Point)
    (hinit : OnlineKNNAnomalyDetector.init k w th = .ok sK)
    (h1 : ps.length < wz) (h2 : ps.length < sK.window_size) :
    (∀ b ∈ (ZScoreAnomalyDetector.run ⟨wz, z, []⟩ ps).1, b = false) ∧
    ∃ s', sK.run ps = .ok (List.replicate ps.length false, s') := by
  constructor
  · rw [zscore_warmup ps ⟨wz, z, []⟩ (by simp only [List.length_nil]; omega)]
    intro b hb
    exact List.eq_of_mem_replicate hb
  · have hcond : ¬ (k < 1 ∨ w < k) := by
      intro hc
      rw [OnlineKNNAnomalyDetector.init, if_pos hc] at hinit
      cases hinit
    rw [OnlineKNNAnomalyDetector.init, if_neg hcond, Except.ok.injEq] at hinit
    have hmem : sK.memory = [] := by rw [← hinit]
    exact ⟨_, knn_warmup ps sK (by rw [hmem, List.length_nil]; omega)⟩

/-- C5 witness: one point into a `window_size = 2` Z-score detector and a
`window_size = 3` k-NN detector. -/
theorem C5_warmup_all_false_witness :
    (∀ b ∈ (ZScoreAnomalyDetector.run ⟨2, 1, []⟩ [(0, 0)]).1, b = false) ∧
    ∃ s', OnlineKNNAnomalyDetector.run ⟨1, 3, [], false, none⟩ [(0, 0)]
      = .ok (List.replicate 1 false, s') :=
  C5_warmup_all_false 2 1 1 3 none ⟨1, 3, [], false, none⟩ [(0, 0)] rfl
    (by norm_num) (by norm_num)

/-! ### C10 / C4 / C7: Z-score eviction and zero-variance guard -/

lemma dequeAppend_length (w : ℕ) (l : List Point) (p : Point) :
    (dequeAppend w l p).length = min (l.length + 1) w := by
  simp only [dequeAppend]
  by_cases hc : w < (l ++ [p]).length
  · rw [if_pos hc, List.length_drop]
    rw [List.length_append, List.length_cons, List.length_nil] at hc ⊢
    omega
  · rw [if_neg hc]
    rw [List.length_append, List.length_cons, List.length_nil] at hc ⊢
    omega

/-- C10: when the zero-variance guard fires on a full buffer, the call
returns `false` and performs no post-decision eviction: the appended point
stays and the buffer ends the call with exactly `window_size` entries. -/
theorem C10_zero_variance_no_eviction (s : ZScoreAnomalyDetector) (p : Point)
    (hfull : s.window_size ≤ (dequeAppend s.window_size s.data_history p).length)
    (hstd : npStd ((dequeAppend s.window_size s.data_history p).map Prod.fst) = 0 ∨
            npStd ((dequeAppend s.window_size s.data_history p).map Prod.snd) = 0) :
    s.is_anomaly p
      = (false, { s with data_history := dequeAppend s.window_size s.data_history p }) ∧
    (dequeAppend s.window_size s.data_history p).length = s.window_size := by
  have hlen : (dequeAppend s.window_size s.data_history p).length = s.window_size := by
    rw [dequeAppend_length] at hfull ⊢
    omega
  refine ⟨?_, hlen⟩
  simp only [ZScoreAnomalyDetector.is_anomaly]
  rw [if_neg (not_lt.2 hfull), if_pos hstd]

/-- C10 witness: a full three-point constant buffer; the call keeps all
three entries. -/
theorem C10_zero_variance_no_eviction_witness :
    ZScoreAnomalyDetector.is_anomaly ⟨3, 2, [(1, 1), (1, 1)]⟩ (1, 1)
      = (false, ⟨3, 2, dequeAppend 3 [(1, 1), (1, 1)] (1, 1)⟩) ∧
    (dequeAppend 3 [(1, 1), (1, 1)] (1, 1)).length = 3 :=
  C10_zero_variance_no_eviction ⟨3, 2, [(1, 1), (1, 1)]⟩ (1, 1)
    (by norm_num [dequeAppend])
    (Or.inl (by norm_num [dequeAppend, npStd, npVar, npMean]))

/-- C4 counterexample: `window_size = 2`, feeding `(0,0), (0,0)`.  The
second call is post-warm-up and returns `false` (not anomalous), yet no
entry is evicted: the buffer ends the call with 2 = `window_size` entries
instead of `window_size − 1`, so the claimed unconditional asymmetric
eviction (and the length oscillation) fails on zero-variance calls. -/
theorem C4_asymmetric_eviction_cex :
    ZScoreAnomalyDetector.run ⟨2, 2, []⟩ [(0, 0), (0, 0)]
      = ([false, false], ⟨2, 2, [(0, 0), (0, 0)]⟩) := by
  have e1 : ZScoreAnomalyDetector.is_anomaly ⟨2, 2, []⟩ (0, 0)
      = (false, ⟨2, 2, [(0, 0)]⟩) :=
    zscore_is_anomaly_warmup (s := ⟨2, 2, []⟩) (0, 0) (by norm_num)
  have e2 : ZScoreAnomalyDetector.is_anomaly ⟨2, 2, [(0, 0)]⟩ (0, 0)
      = (false, ⟨2, 2, [(0, 0), (0, 0)]⟩) := by
    simp only [ZScoreAnomalyDetector.is_anomaly]
    norm_num [dequeAppend, npStd, npVar, npMean]
  simp only [ZScoreAnomalyDetector.run, e1, e2]

/-- C4 (amended): every post-warm-up call on which no dimension has zero
standard deviation performs the asymmetric post-decision eviction — the
newest entry (the point itself) is removed when flagged anomalous, the
oldest otherwise — leaving exactly `window_size − 1` entries; calls on
which the guard fires evict nothing and end at `window_size` entries, so
the length oscillation holds only along guard-free calls. -/
theorem C4_asymmetric_eviction (s : ZScoreAnomalyDetector) (p : Point)
    (hfull : s.window_size ≤ (dequeAppend s.window_size s.data_history p).length)
    (hstd1 : npStd ((dequeAppend s.window_size s.data_history p).map Prod.fst) ≠ 0)
    (hstd2 : npStd ((dequeAppend s.window_size s.data_history p).map Prod.snd) ≠ 0) :
    ∃ b, s.is_anomaly p = (b,
      { s with data_history :=
          if b = true then (dequeAppend s.window_size s.data_history p).dropLast
          else (dequeAppend s.window_size s.data_history p).tail }) ∧
      (b = true ↔
        (s.z_threshold <
          |(p.1 - npMean ((dequeAppend s.window_size s.data_history p).map Prod.fst)) /
            npStd ((dequeAppend s.window_size s.data_history p).map Prod.fst)| ∨
         s.z_threshold <
          |(p.2 - npMean ((dequeAppend s.window_size s.data_history p).map Prod.snd)) /
            npStd ((dequeAppend s.window_size s.data_history p).map Prod.snd)|)) ∧
      (if b = true then (dequeAppend s.window_size s.data_history p).dropLast
       else (dequeAppend s.window_size s.data_history p).tail).length + 1
        = s.window_size := by
  have hlen : (dequeAppend s.window_size s.data_history p).length = s.window_size := by
    rw [dequeAppend_length] at hfull ⊢
    omega
  have hw1 : 1 ≤ s.window_size := by
    by_contra hc
    apply hstd1
    have h0 : (dequeAppend s.window_size s.data_history p).length = 0 := by omega
    rw [List.length_eq_zero.1 h0]
    simp [npStd, npVar]
  simp only [ZScoreAnomalyDetector.is_anomaly]
  rw [if_neg (not_lt.2 hfull), if_neg (not_or.2 ⟨hstd1, hstd2⟩)]
  by_cases hdec :
      s.z_threshold <
        |(p.1 - npMean ((dequeAppend s.window_size s.data_history p).map Prod.fst)) /
          npStd ((dequeAppend s.window_size s.data_history p).map Prod.fst)| ∨
      s.z_threshold <
        |(p.2 - npMean ((dequeAppend s.window_size s.data_history p).map Prod.snd)) /
          npStd ((dequeAppend s.window_size s.data_history p).map Prod.snd)|
  · refine ⟨true, ?_, iff_of_true rfl hdec, ?_⟩
    · rw [if_pos hdec]
      rfl
    · rw [if_pos rfl, List.length_dropLast]
      omega
  · refine ⟨false, ?_, iff_of_false (by simp) hdec, ?_⟩
    · rw [if_neg hdec]
      rfl
    · rw [if_neg (by simp), List.length_tail]
      omega

/-- C4 witness: a full two-point buffer with nonzero spread; the call
evicts one entry, leaving `window_size − 1`. -/
theorem C4_asymmetric_eviction_witness :
    ∃ b, ZScoreAnomalyDetector.is_anomaly ⟨2, 2, [(0, 0)]⟩ (4, 4) = (b,
      { ZScoreAnomalyDetector.mk 2 2 [(0, 0)] with data_history :=
          if b = true then (dequeAppend 2 [(0, 0)] (4, 4)).dropLast
          else (dequeAppend 2 [(0, 0)] (4, 4)).tail }) ∧
      (b = true ↔
        ((2 : ℝ) <
          |((4 : ℝ) - npMean ((dequeAppend 2 [(0, 0)] (4, 4)).map Prod.fst)) /
            npStd ((dequeAppend 2 [(0, 0)] (4, 4)).map Prod.fst)| ∨
         (2 : ℝ) <
          |((4 : ℝ) - npMean ((dequeAppend 2 [(0, 0)] (4, 4)).map Prod.snd)) /
            npStd ((dequeAppend 2 [(0, 0)] (4, 4)).map Prod.snd)|)) ∧
      (if b = true then (dequeAppend 2 [(0, 0)] (4, 4)).dropLast
       else (dequeAppend 2 [(0, 0)] (4, 4)).tail).length + 1 = 2 :=
  C4_asymmetric_eviction ⟨2, 2, [(0, 0)]⟩ (4, 4)
    (by norm_num [dequeAppend])
    (by norm_num [dequeAppend, npStd, npVar, npMean, Real.sqrt_eq_zero'])
    (by norm_num [dequeAppend, npStd, npVar, npMean, Real.sqrt_eq_zero'])

/-- C7: on a full buffer, a zero standard deviation in any dimension makes
the call return `false`; in particular (Scenario A) five `(0,0)` points
into a `window_size = 5, z_threshold = 2` detector all yield `false`. -/
theorem C7_zero_variance_guard :
    (∀ (s : ZScoreAnomalyDetector) (p : Point),
      s.window_size ≤ (dequeAppend s.window_size s.data_history p).length →
      npStd ((dequeAppend s.window_size s.data_history p).map Prod.fst) = 0 ∨
      npStd ((dequeAppend s.window_size s.data_history p).map Prod.snd) = 0 →
      (s.is_anomaly p).1 = false) ∧
    (ZScoreAnomalyDetector.run ⟨5, 2, []⟩
      [(0, 0), (0, 0), (0, 0), (0, 0), (0, 0)]).1
      = [false, false, false, false, false] := by
  constructor
  · intro s p hfull hstd
    simp only [ZScoreAnomalyDetector.is_anomaly]
    rw [if_neg (not_lt.2 hfull), if_pos hstd]
  · have e1 : ZScoreAnomalyDetector.is_anomaly ⟨5, 2, []⟩ (0, 0)
        = (false, ⟨5, 2, [(0, 0)]⟩) :=
      zscore_is_anomaly_warmup (s := ⟨5, 2, []⟩) (0, 0) (by norm_num)
    have e2 : ZScoreAnomalyDetector.is_anomaly ⟨5, 2, [(0, 0)]⟩ (0, 0)
        = (false, ⟨5, 2, [(0, 0), (0, 0)]⟩) :=
      zscore_is_anomaly_warmup (s := ⟨5, 2, [(0, 0)]⟩) (0, 0) (by norm_num)
    have e3 : ZScoreAnomalyDetector.is_anomaly ⟨5, 2, [(0, 0), (0, 0)]⟩ (0, 0)
        = (false, ⟨5, 2, [(0, 0), (0, 0), (0, 0)]⟩) :=
      zscore_is_anomaly_warmup (s := ⟨5, 2, [(0, 0), (0, 0)]⟩) (0, 0) (by norm_num)
    have e4 : ZScoreAnomalyDetector.is_anomaly ⟨5, 2, [(0, 0), (0, 0), (0, 0)]⟩ (0, 0)
        = (false, ⟨5, 2, [(0, 0), (0, 0), (0, 0), (0, 0)]⟩) :=
      zscore_is_anomaly_warmup (s := ⟨5, 2, [(0, 0), (0, 0), (0, 0)]⟩) (0, 0)
        (by norm_num)
    have e5 : ZScoreAnomalyDetector.is_anomaly
          ⟨5, 2, [(0, 0), (0, 0), (0, 0), (0, 0)]⟩ (0, 0)
        = (false, ⟨5, 2, [(0, 0), (0, 0), (0, 0), (0, 0), (0, 0)]⟩) := by
      simp only [ZScoreAnomalyDetector.is_anomaly]
      norm_num [dequeAppend, npStd, npVar, npMean]
    simp only [ZScoreAnomalyDetector.run, e1, e2, e3, e4, e5]

/-- C7 witness: the guard applied at a concrete full constant buffer. -/
theorem C7_zero_variance_guard_witness :
    (ZScoreAnomalyDetector.is_anomaly ⟨2, 2, [(3, 3)]⟩ (3, 3)).1 = false :=
  (C7_zero_variance_guard).1 ⟨2, 2, [(3, 3)]⟩ (3, 3)
    (by norm_num [dequeAppend])
    (Or.inl (by norm_num [dequeAppend, npStd, npVar, npMean]))

/-! ### C6: admission into k-NN Memory -/

lemma sqrt_eval {x y : ℝ} (hy : 0 ≤ y) (h : y ^ 2 = x) : Real.sqrt x = y := by
  rw [← h, Real.sqrt_sq hy]

lemma add_point_some {s : OnlineKNNAnomalyDetector} {t : ℝ} (p : Point)
    (ht : s.threshold = some t) :
    s.add_point p = .ok { s with memory := knnPush s.window_size s.memory p } := by
  unfold OnlineKNNAnomalyDetector.add_point
  rw [if_neg]
  rintro ⟨h1, -, -⟩
  rw [ht] at h1
  exact Bool.noConfusion h1

lemma add_point_memory {s s1 : OnlineKNNAnomalyDetector} {p : Point}
    (h : s.add_point p = .ok s1) :
    s1.memory = knnPush s.window_size s.memory p := by
  unfold OnlineKNNAnomalyDetector.add_point at h
  by_cases hc : s.threshold.isNone = true ∧ s.is_auto_threshold_calculated = false ∧
      s.window_size ≤ (knnPush s.window_size s.memory p).length
  · rw [if_pos hc] at h
    cases hcalc : OnlineKNNAnomalyDetector.calculate_threshold
        { s with memory := knnPush s.window_size s.memory p } with
    | none =>
      rw [hcalc] at h
      exact Except.noConfusion h
    | some t =>
      rw [hcalc] at h
      simp only [Except.ok.injEq] at h
      rw [← h]
  · rw [if_neg hc] at h
    simp only [Except.ok.injEq] at h
    rw [← h]

/-- C6 (amended): per-call admission law.  A call that flags its point
anomalous leaves the detector state (in particular Memory) unchanged — the
point is discarded; a call that returns `false` admits its point through
`add_point`, the only admission path.  (An equal-valued point fed again
later can still be admitted once Memory has drifted, which is what refutes
the claim's "never subsequently found in Memory".) -/
theorem C6_admission (s : OnlineKNNAnomalyDetector) (p : Point) (b : Bool)
    (s' : OnlineKNNAnomalyDetector) (h : s.is_anomaly p = .ok (b, s')) :
    (b = true → s' = s) ∧
    (b = false → s.add_point p = .ok s' ∧
      s'.memory = knnPush s.window_size s.memory p) := by
  unfold OnlineKNNAnomalyDetector.is_anomaly at h
  by_cases hwarm : s.memory.length < s.window_size
  · rw [if_pos hwarm] at h
    cases hadd : s.add_point p with
    | error e =>
      rw [hadd] at h
      exact Except.noConfusion h
    | ok s1 =>
      rw [hadd] at h
      simp only [Except.map, Except.ok.injEq, Prod.mk.injEq] at h
      obtain ⟨hb, hs⟩ := h
      subst hs
      constructor
      · intro hbt
        rw [← hb] at hbt
        exact Bool.noConfusion hbt
      · intro _
        exact ⟨rfl, add_point_memory hadd⟩
  · rw [if_neg hwarm] at h
    cases hget : (npSort (s.memory.map fun q => distance p q)).get? (s.k - 1) with
    | none =>
      rw [hget] at h
      exact Except.noConfusion h
    | some d =>
      rw [hget] at h
      cases hth : s.threshold with
      | none =>
        rw [hth] at h
        exact Except.noConfusion h
      | some t =>
        rw [hth] at h
        by_cases hdec : t < d
        · simp only [if_pos hdec, Except.ok.injEq, Prod.mk.injEq] at h
          obtain ⟨hb, hs⟩ := h
          constructor
          · intro _
            exact hs.symm
          · intro hbf
            rw [← hb] at hbf
            exact Bool.noConfusion hbf
        · simp only [if_neg hdec] at h
          cases hadd : s.add_point p with
          | error e =>
            rw [hadd] at h
            exact Except.noConfusion h
          | ok s1 =>
            rw [hadd] at h
            simp only [Except.map, Except.ok.injEq, Prod.mk.injEq] at h
            obtain ⟨hb, hs⟩ := h
            subst hs
            constructor
            · intro hbt
              rw [← hb] at hbt
              exact Bool.noConfusion hbt
            · intro _
              exact ⟨rfl, add_point_memory hadd⟩

lemma dist_4_1 : distance (4, 0) (1, 0) = 3 := by
  unfold distance
  rw [show ((4 : ℝ) - 1) ^ 2 + ((0 : ℝ) - 0) ^ 2 = 3 ^ 2 by norm_num]
  exact Real.sqrt_sq (by norm_num)

lemma dist_52_1 : distance (5 / 2, 0) (1, 0) = 3 / 2 := by
  unfold distance
  rw [show ((5 / 2 : ℝ) - 1) ^ 2 + ((0 : ℝ) - 0) ^ 2 = (3 / 2) ^ 2 by norm_num]
  exact Real.sqrt_sq (by norm_num)

lemma dist_4_52 : distance (4, 0) (5 / 2, 0) = 3 / 2 := by
  unfold distance
  rw [show ((4 : ℝ) - 5 / 2) ^ 2 + ((0 : ℝ) - 0) ^ 2 = (3 / 2) ^ 2 by norm_num]
  exact Real.sqrt_sq (by norm_num)

lemma knn_c6_step1 : OnlineKNNAnomalyDetector.is_anomaly ⟨1, 2, [], false, some 2⟩ (1, 0)
    = .ok (false, ⟨1, 2, [(1, 0)], false, some 2⟩) := by
  rw [is_anomaly_warmup _ (by norm_num), add_point_small _ (by norm_num)]
  rfl

lemma knn_c6_step2 :
    OnlineKNNAnomalyDetector.is_anomaly ⟨1, 2, [(1, 0)], false, some 2⟩ (1, 0)
    = .ok (false, ⟨1, 2, [(1, 0), (1, 0)], false, some 2⟩) := by
  rw [is_anomaly_warmup _ (by norm_num), add_point_some _ rfl]
  norm_num [knnPush, Except.map]

lemma knn_c6_step3 :
    OnlineKNNAnomalyDetector.is_anomaly ⟨1, 2, [(1, 0), (1, 0)], false, some 2⟩ (4, 0)
    = .ok (true, ⟨1, 2, [(1, 0), (1, 0)], false, some 2⟩) := by
  simp only [OnlineKNNAnomalyDetector.is_anomaly]
  norm_num [dist_4_1, npSort, Except.map]

lemma knn_c6_step4 :
    OnlineKNNAnomalyDetector.is_anomaly ⟨1, 2, [(1, 0), (1, 0)], false, some 2⟩ (5 / 2, 0)
    = .ok (false, ⟨1, 2, [(1, 0), (5 / 2, 0)], false, some 2⟩) := by
  have hadd : OnlineKNNAnomalyDetector.add_point
      ⟨1, 2, [(1, 0), (1, 0)], false, some 2⟩ (5 / 2, 0)
      = .ok ⟨1, 2, [(1, 0), (5 / 2, 0)], false, some 2⟩ := by
    rw [add_point_some _ rfl]
    norm_num [knnPush, List.eraseIdx]
  simp only [OnlineKNNAnomalyDetector.is_anomaly]
  norm_num [dist_52_1, npSort, hadd, Except.map]

lemma knn_c6_step5 :
    OnlineKNNAnomalyDetector.is_anomaly ⟨1, 2, [(1, 0), (5 / 2, 0)], false, some 2⟩ (4, 0)
    = .ok (false, ⟨1, 2, [(5 / 2, 0), (4, 0)], false, some 2⟩) := by
  have hadd : OnlineKNNAnomalyDetector.add_point
      ⟨1, 2, [(1, 0), (5 / 2, 0)], false, some 2⟩ (4, 0)
      = .ok ⟨1, 2, [(5 / 2, 0), (4, 0)], false, some 2⟩ := by
    rw [add_point_some _ rfl]
    norm_num [knnPush, List.eraseIdx]
  simp only [OnlineKNNAnomalyDetector.is_anomaly]
  norm_num [dist_4_1, dist_4_52, npSort, hadd, Except.map]

/-- C6 counterexample: with `k = 1, window_size = 2, threshold = 2`, the
point `(4,0)` is flagged anomalous on call 3, yet after Memory drifts
through the accepted point `(5/2, 0)`, feeding `(4,0)` again is accepted
and `(4,0)` ends up in Memory — so a point once classified anomalous IS
subsequently found in Memory. -/
theorem C6_admission_cex :
    OnlineKNNAnomalyDetector.init 1 2 (some 2) = .ok ⟨1, 2, [], false, some 2⟩ ∧
    OnlineKNNAnomalyDetector.run ⟨1, 2, [], false, some 2⟩
        [(1, 0), (1, 0), (4, 0), (5 / 2, 0), (4, 0)]
      = .ok ([false, false, true, false, false],
             ⟨1, 2, [(5 / 2, 0), (4, 0)], false, some 2⟩) ∧
    ((4 : ℝ), (0 : ℝ)) ∈ [((5 / 2 : ℝ), (0 : ℝ)), (4, 0)] := by
  refine ⟨rfl, ?_, by simp⟩
  simp only [OnlineKNNAnomalyDetector.run, knn_c6_step1, knn_c6_step2, knn_c6_step3,
    knn_c6_step4, knn_c6_step5]

/-- C6 witness: the per-call admission law applied at the anomalous call 3
of the counterexample trace. -/
theorem C6_admission_witness :
    (true = true →
      (⟨1, 2, [(1, 0), (1, 0)], false, some 2⟩ : OnlineKNNAnomalyDetector)
        = ⟨1, 2, [(1, 0), (1, 0)], false, some 2⟩) ∧
    (true = false →
      OnlineKNNAnomalyDetector.add_point
          ⟨1, 2, [(1, 0), (1, 0)], false, some 2⟩ (4, 0)
        = .ok ⟨1, 2, [(1, 0), (1, 0)], false, some 2⟩ ∧
      (⟨1, 2, [(1, 0), (1, 0)], false, some 2⟩ :
          OnlineKNNAnomalyDetector).memory = knnPush 2 [(1, 0), (1, 0)] (4, 0)) :=
  C6_admission ⟨1, 2, [(1, 0), (1, 0)], false, some 2⟩ (4, 0) true
    ⟨1, 2, [(1, 0), (1, 0)], false, some 2⟩ knn_c6_step3

/-! ### C8: the k-NN decision rule -/

lemma sorted_filter_le_iff :
    ∀ (l : List ℝ), List.Sorted (· ≤ ·) l → ∀ (i : ℕ) (hi : i < l.length) (t : ℝ),
      (t < l.get ⟨i, hi⟩ ↔ (l.filter fun x => decide (x ≤ t)).length ≤ i)
  | [], _, i, hi, t => absurd hi (by simp)
  | a :: l, hs, 0, hi, t => by
    have ha := List.rel_of_sorted_cons hs
    constructor
    · intro hta
      have hnil : List.filter (fun x => decide (x ≤ t)) (a :: l) = [] := by
        rw [List.filter_eq_nil_iff]
        intro x hx
        rcases List.mem_cons.1 hx with rfl | hx
        · simpa using not_le.2 hta
        · simpa using not_le.2 (lt_of_lt_of_le hta (ha x hx))
      rw [hnil]
      simp
    · intro hlen
      by_contra hc
      have hmem : a ∈ List.filter (fun x => decide (x ≤ t)) (a :: l) := by
        rw [List.mem_filter]
        exact ⟨List.mem_cons_self a l, by simpa using not_lt.1 hc⟩
      have := List.length_pos.2 (List.ne_nil_of_mem hmem)
      omega
  | a :: l, hs, i + 1, hi, t => by
    have ha := List.rel_of_sorted_cons hs
    have hi' : i < l.length := by simpa using hi
    have IH := sorted_filter_le_iff l hs.of_cons i hi' t
    have hget : (a :: l).get ⟨i + 1, hi⟩ = l.get ⟨i, hi'⟩ := rfl
    by_cases hat : a ≤ t
    · rw [hget, List.filter_cons_of_pos (by simpa using hat), List.length_cons]
      constructor
      · intro h
        have := IH.1 h
        omega
      · intro h
        exact IH.2 (by omega)
    · have hta : t < a := not_le.1 hat
      rw [hget]
      constructor
      · intro _
        have hnil : List.filter (fun x => decide (x ≤ t)) (a :: l) = [] := by
          rw [List.filter_eq_nil_iff]
          intro x hx
          rcases List.mem_cons.1 hx with rfl | hx
          · simpa using not_le.2 hta
          · simpa using not_le.2 (lt_of_lt_of_le hta (ha x hx))
        rw [hnil]
        simp
      · intro _
        exact lt_of_lt_of_le hta (ha _ (l.get_mem i hi'))

lemma dist_cluster_far : distance (50, 50) (1 / 10, 1 / 10) = Real.sqrt (249001 / 50) := by
  unfold distance
  norm_num

lemma dist_cluster_near : distance (1 / 20, 1 / 20) (1 / 10, 1 / 10) = Real.sqrt (1 / 200) := by
  unfold distance
  norm_num

lemma far_above_threshold : (2 : ℝ) < Real.sqrt (249001 / 50) := by
  rw [Real.lt_sqrt (by norm_num)]
  norm_num

lemma near_below_threshold : ¬ (2 : ℝ) < Real.sqrt (1 / 200) := by
  rw [Real.lt_sqrt (by norm_num)]
  norm_num

/-- C8: with full Memory and a set threshold, `is_anomaly` answers `true`
exactly when the k-th smallest Euclidean distance from the query to Memory
strictly exceeds the threshold (equivalently: fewer than k members of
Memory lie within distance `t`); and Scenario B behaves as specified:
five clustered points (magnitude < 0.2) warm up a
`k = 3, window_size = 5, threshold = 2` detector with all-`false`
answers, then `(50,50)` is flagged `true` and `(1/20, 1/20)` is
classified `false`. -/
theorem C8_knn_decision_rule :
    (∀ (s : OnlineKNNAnomalyDetector) (t : ℝ) (p : Point),
      s.threshold = some t → s.window_size ≤ s.memory.length →
      1 ≤ s.k → s.k ≤ s.memory.length →
      ∃ b s', s.is_anomaly p = .ok (b, s') ∧
        (b = true ↔ (s.memory.filter fun q => decide (distance p q ≤ t)).length < s.k)) ∧
    (OnlineKNNAnomalyDetector.init 3 5 (some 2) = .ok ⟨3, 5, [], false, some 2⟩ ∧
     OnlineKNNAnomalyDetector.run ⟨3, 5, [], false, some 2⟩
        [(1 / 10, 1 / 10), (1 / 10, 1 / 10), (1 / 10, 1 / 10), (1 / 10, 1 / 10),
         (1 / 10, 1 / 10), (50, 50), (1 / 20, 1 / 20)]
      = .ok ([false, false, false, false, false, true, false],
          ⟨3, 5, [(1 / 10, 1 / 10), (1 / 10, 1 / 10), (1 / 10, 1 / 10), (1 / 10, 1 / 10),
                  (1 / 20, 1 / 20)], false, some 2⟩)) := by
  constructor
  · intro s t p ht hfull hk hkm
    have hidx : s.k - 1 < (npSort (s.memory.map fun q => distance p q)).length := by
      rw [npSort_length, List.length_map]
      omega
    have hget : (npSort (s.memory.map fun q => distance p q)).get? (s.k - 1)
        = some ((npSort (s.memory.map fun q => distance p q)).get ⟨s.k - 1, hidx⟩) :=
      List.get?_eq_get hidx
    have hsorted : List.Sorted (· ≤ ·) (npSort (s.memory.map fun q => distance p q)) :=
      List.sorted_insertionSort _ _
    have hcount : ((npSort (s.memory.map fun q => distance p q)).filter
          fun x => decide (x ≤ t)).length
        = (s.memory.filter fun q => decide (distance p q ≤ t)).length := by
      unfold npSort
      rw [((List.perm_insertionSort (fun x1 x2 => x1 ≤ x2)
        (s.memory.map fun q => distance p q)).filter fun x => decide (x ≤ t)).length_eq]
      rw [List.filter_map, List.length_map]
      rfl
    have hiff : (t < (npSort (s.memory.map fun q => distance p q)).get ⟨s.k - 1, hidx⟩)
        ↔ (s.memory.filter fun q => decide (distance p q ≤ t)).length < s.k := by
      rw [sorted_filter_le_iff _ hsorted (s.k - 1) hidx t, hcount]
      omega
    by_cases hdec : t < (npSort (s.memory.map fun q => distance p q)).get ⟨s.k - 1, hidx⟩
    · refine ⟨true, s, ?_, iff_of_true rfl (hiff.1 hdec)⟩
      unfold OnlineKNNAnomalyDetector.is_anomaly
      rw [if_neg (not_lt.2 hfull), hget, ht]
      simp only [if_pos hdec]
    · refine ⟨false, { s with memory := knnPush s.window_size s.memory p }, ?_,
        iff_of_false (by simp) fun hcnt => hdec (hiff.2 hcnt)⟩
      unfold OnlineKNNAnomalyDetector.is_anomaly
      rw [if_neg (not_lt.2 hfull), hget, ht]
      simp only [if_neg hdec]
      rw [add_point_some p ht, ht]
      rfl
  · refine ⟨rfl, ?_⟩
    have e1 : OnlineKNNAnomalyDetector.is_anomaly ⟨3, 5, [], false, some 2⟩
          (1 / 10, 1 / 10)
        = .ok (false, ⟨3, 5, [(1 / 10, 1 / 10)], false, some 2⟩) := by
      rw [is_anomaly_warmup _ (by norm_num), add_point_small _ (by norm_num)]
      rfl
    have e2 : OnlineKNNAnomalyDetector.is_anomaly ⟨3, 5, [(1 / 10, 1 / 10)], false, some 2⟩
          (1 / 10, 1 / 10)
        = .ok (false, ⟨3, 5, [(1 / 10, 1 / 10), (1 / 10, 1 / 10)], false, some 2⟩) := by
      rw [is_anomaly_warmup _ (by norm_num), add_point_small _ (by norm_num)]
      rfl
    have e3 : OnlineKNNAnomalyDetector.is_anomaly
          ⟨3, 5, [(1 / 10, 1 / 10), (1 / 10, 1 / 10)], false, some 2⟩ (1 / 10, 1 / 10)
        = .ok (false, ⟨3, 5, [(1 / 10, 1 / 10), (1 / 10, 1 / 10), (1 / 10, 1 / 10)],
            false, some 2⟩) := by
      rw [is_anomaly_warmup _ (by norm_num), add_point_small _ (by norm_num)]
      rfl
    have e4 : OnlineKNNAnomalyDetector.is_anomaly
          ⟨3, 5, [(1 / 10, 1 / 10), (1 / 10, 1 / 10), (1 / 10, 1 / 10)], false, some 2⟩
          (1 / 10, 1 / 10)
        = .ok (false, ⟨3, 5, [(1 / 10, 1 / 10), (1 / 10, 1 / 10), (1 / 10, 1 / 10),
            (1 / 10, 1 / 10)], false, some 2⟩) := by
      rw [is_anomaly_warmup _ (by norm_num), add_point_small _ (by norm_num)]
      rfl
    have e5 : OnlineKNNAnomalyDetector.is_anomaly
          ⟨3, 5, [(1 / 10, 1 / 10), (1 / 10, 1 / 10), (1 / 10, 1 / 10), (1 / 10, 1 / 10)],
            false, some 2⟩ (1 / 10, 1 / 10)
        = .ok (false, ⟨3, 5, [(1 / 10, 1 / 10), (1 / 10, 1 / 10), (1 / 10, 1 / 10),
            (1 / 10, 1 / 10), (1 / 10, 1 / 10)], false, some 2⟩) := by
      rw [is_anomaly_warmup _ (by norm_num), add_point_some _ rfl]
      norm_num [knnPush, Except.map]
    have e6 : OnlineKNNAnomalyDetector.is_anomaly
          ⟨3, 5, [(1 / 10, 1 / 10), (1 / 10, 1 / 10), (1 / 10, 1 / 10), (1 / 10, 1 / 10),
            (1 / 10, 1 / 10)], false, some 2⟩ (50, 50)
        = .ok (true, ⟨3, 5, [(1 / 10, 1 / 10), (1 / 10, 1 / 10), (1 / 10, 1 / 10),
            (1 / 10, 1 / 10), (1 / 10, 1 / 10)], false, some 2⟩) := by
      have hfar : (2 : ℝ) < distance (50, 50) (1 / 10, 1 / 10) := by
        rw [dist_cluster_far]
        exact far_above_threshold
      simp only [OnlineKNNAnomalyDetector.is_anomaly]
      norm_num [hfar, npSort, Except.map]
    have e7 : OnlineKNNAnomalyDetector.is_anomaly
          ⟨3, 5, [(1 / 10, 1 / 10), (1 / 10, 1 / 10), (1 / 10, 1 / 10), (1 / 10, 1 / 10),
            (1 / 10, 1 / 10)], false, some 2⟩ (1 / 20, 1 / 20)
        = .ok (false, ⟨3, 5, [(1 / 10, 1 / 10), (1 / 10, 1 / 10), (1 / 10, 1 / 10),
            (1 / 10, 1 / 10), (1 / 20, 1 / 20)], false, some 2⟩) := by
      have hadd : OnlineKNNAnomalyDetector.add_point
          ⟨3, 5, [(1 / 10, 1 / 10), (1 / 10, 1 / 10), (1 / 10, 1 / 10), (1 / 10, 1 / 10),
            (1 / 10, 1 / 10)], false, some 2⟩ (1 / 20, 1 / 20)
          = .ok ⟨3, 5, [(1 / 10, 1 / 10), (1 / 10, 1 / 10), (1 / 10, 1 / 10),
              (1 / 10, 1 / 10), (1 / 20, 1 / 20)], false, some 2⟩ := by
        rw [add_point_some _ rfl]
        norm_num [knnPush, List.eraseIdx]
      have hnear : ¬ (2 : ℝ) < distance (1 / 20, 1 / 20) (1 / 10, 1 / 10) := by
        rw [dist_cluster_near]
        exact near_below_threshold
      simp only [OnlineKNNAnomalyDetector.is_anomaly]
      norm_num [hnear, npSort, hadd, Except.map]
    simp only [OnlineKNNAnomalyDetector.run, e1, e2, e3, e4, e5, e6, e7]

/-- C8 witness: the decision rule applied at a concrete full-memory
state. -/
theorem C8_knn_decision_rule_witness :
    ∃ b s', OnlineKNNAnomalyDetector.is_anomaly
        ⟨1, 1, [(1, 0)], false, some 2⟩ (4, 0) = .ok (b, s') ∧
      (b = true ↔ (([((1 : ℝ), (0 : ℝ))]).filter
        fun q => decide (distance (4, 0) q ≤ 2)).length < 1) :=
  (C8_knn_decision_rule).1 ⟨1, 1, [(1, 0)], false, some 2⟩ 2 (4, 0) rfl
    (by norm_num) (by norm_num) (by norm_num)

/-! ### C9: Z-score construction performs no validation -/

/-- C9 counterexample: constructing a Z-score detector with
`window_size = 0` (not positive) and `z_threshold = 0` (not positive)
succeeds, so construction does not validate the configuration as the claim
states. -/
theorem C9_zscore_init_no_validation_cex :
    ZScoreAnomalyDetector.init 0 0 = .ok ⟨0, 0, []⟩ := rfl

/-- C9 (amended): the Z-score constructor performs no configuration
validation: it succeeds for every `window_size ≥ 0` and every
`z_threshold` whatsoever, and fails only for a negative `window_size`
(an incidental failure of the deque's `maxlen` check). -/
theorem C9_zscore_init_no_validation (w : ℤ) (z : ℝ) :
    (0 ≤ w → ZScoreAnomalyDetector.init w z = .ok ⟨w.toNat, z, []⟩) ∧
    (w < 0 → ZScoreAnomalyDetector.init w z = .error "maxlen must be non-negative") := by
  constructor
  · intro h
    simp only [ZScoreAnomalyDetector.init, if_neg (not_lt.mpr h)]
  · intro h
    simp only [ZScoreAnomalyDetector.init, if_pos h]

/-- C9 witness: instantiation at `window_size = 1`, `z_threshold = -1`. -/
theorem C9_zscore_init_no_validation_witness :
    ZScoreAnomalyDetector.init 1 (-1) = .ok ⟨1, -1, []⟩ :=
  (C9_zscore_init_no_validation 1 (-1)).1 (by norm_num)

end AnomalyDetection
